import Mathlib

/-!
Shallow embedding of the 16-bit GPR CPU emulator (src/gpr_cpu.cpp):
the Bus, the instruction decoder, the flag helpers, the execute dispatch,
the single-step driver and the run-to-halt loop.  16-bit machine words are
modelled as Nat with explicit reduction modulo 2^16 at the points where the
C++ code stores into a uint16_t.
-/

/-- Modelled from the spec: the flag bit constants FLAG_ZERO, FLAG_CARRY,
FLAG_NEGATIVE live in the external header gpr_cpu.h, which is not under src/.
The spec describes FLAGS as a bitmask with three independent bits; we place
them at bits 0, 1 and 2. -/
def FLAG_ZERO : Nat := 1

/-- Modelled from the spec: carry flag bit (see FLAG_ZERO). -/
def FLAG_CARRY : Nat := 2

/-- Modelled from the spec: negative flag bit (see FLAG_ZERO). -/
def FLAG_NEGATIVE : Nat := 4

/-- The mask of the three condition bits, as used in
FLAGS &= ~(FLAG_ZERO | FLAG_CARRY | FLAG_NEGATIVE). -/
def flagMask : Nat := FLAG_ZERO ||| FLAG_CARRY ||| FLAG_NEGATIVE

/-- f &= ~(Z|C|N): clear the three condition bits of f.  For a Nat f the bits
of f &&& m are a subset of the bits of f, so subtracting f &&& m clears
exactly those bits. -/
def clearZCN (f : Nat) : Nat := f - (f &&& flagMask)

/-- Bus (src/gpr_cpu.cpp lines 13-32): a fixed-size array of 16-bit cells.
The capacity MEMORY_SIZE is defined in the external header gpr_cpu.h (not
under src/); the spec fixes it as a capacity chosen at construction — 65536
in this build ("fixed 64K memory").  We keep it as a field so the
bounds-check contract is visible. -/
structure Bus where
  capacity : Nat
  memory : Nat → Nat

/-- Bus::read: in-range addresses return the stored cell, out-of-range
addresses return 0. -/
def Bus.read (b : Bus) (address : Nat) : Nat :=
  if address < b.capacity then b.memory address else 0

/-- Bus::write: in-range addresses store the value, out-of-range writes are
silently discarded. -/
def Bus.write (b : Bus) (address value : Nat) : Bus :=
  if address < b.capacity then
    { b with memory := fun a => if a = address then value else b.memory a }
  else b

/-- CPUState: eight 16-bit registers, 16-bit PC, FLAGS bitmask, halted bit. -/
structure CPUState where
  R : Fin 8 → Nat
  PC : Nat
  FLAGS : Nat
  halted : Bool

/-- The CPU core together with the Bus it references. -/
structure GPRCPU where
  state : CPUState
  bus : Bus

/-- The instruction set.  The numeric enum values live in the external header
gpr_cpu.h (not under src/). -/
inductive Opcode where
  | HALT | MOVI | MOV | LOAD | STORE | ADD | SUB
  | AND | OR | XOR | NOT | SHL | SHR | JMP | JZ | NOP
  deriving DecidableEq

/-- Modelled from the spec: the opcode-to-4-bit-value mapping is defined in
the external header gpr_cpu.h, which is not under src/.  The spec (design
note 1) requires a consistent 1:1 mapping of the 15 named operations over the
4-bit codes, any unused code falling through to NOP; we use the order of the
dispatch cases of GPRCPU::execute.  The switch default also maps to NOP. -/
def decodeToOp (n : Nat) : Opcode :=
  match n with
  | 0 => Opcode.HALT
  | 1 => Opcode.MOVI
  | 2 => Opcode.MOV
  | 3 => Opcode.LOAD
  | 4 => Opcode.STORE
  | 5 => Opcode.ADD
  | 6 => Opcode.SUB
  | 7 => Opcode.AND
  | 8 => Opcode.OR
  | 9 => Opcode.XOR
  | 10 => Opcode.NOT
  | 11 => Opcode.SHL
  | 12 => Opcode.SHR
  | 13 => Opcode.JMP
  | 14 => Opcode.JZ
  | _ => Opcode.NOP

/-- GPRCPU::decodeOpcode: bits 15-12. -/
def GPRCPU.decodeOpcode (inst : Nat) : Nat := (inst >>> 12) &&& 0xF

/-- GPRCPU::decodeRd: bits 11-9. -/
def GPRCPU.decodeRd (inst : Nat) : Nat := (inst >>> 9) &&& 0x7

/-- GPRCPU::decodeRs: bits 8-6. -/
def GPRCPU.decodeRs (inst : Nat) : Nat := (inst >>> 6) &&& 0x7

/-- GPRCPU::decodeImm9: bits 8-0. -/
def GPRCPU.decodeImm9 (inst : Nat) : Nat := inst &&& 0x1FF

/-- View a decoded register number (always < 8) as an index into R. -/
def regIdx (n : Nat) : Fin 8 := ⟨n % 8, Nat.mod_lt n (by omega)⟩

/-- The register index Rd of an instruction word. -/
def GPRCPU.rdIdx (w : Nat) : Fin 8 := regIdx (GPRCPU.decodeRd w)

/-- The register index Rs of an instruction word. -/
def GPRCPU.rsIdx (w : Nat) : Fin 8 := regIdx (GPRCPU.decodeRs w)

/-- Pointwise update of the register file (state.R[i] = v). -/
def updR (R : Fin 8 → Nat) (i : Fin 8) (v : Nat) : Fin 8 → Nat :=
  fun j => if j = i then v else R j

/-- GPRCPU::setResultFlags: clear Z, C, N; set Z iff result == 0; set N iff
bit 15 of result is set. -/
def setResultFlags (flags result : Nat) : Nat :=
  let f := clearZCN flags
  let f := if result = 0 then f ||| FLAG_ZERO else f
  if result &&& 0x8000 ≠ 0 then f ||| FLAG_NEGATIVE else f

/-- GPRCPU::setAddFlags: Z and N on the result, C iff the unsigned sum of
the original operands exceeds 0xFFFF. -/
def setAddFlags (flags a b result : Nat) : Nat :=
  let f := clearZCN flags
  let f := if result = 0 then f ||| FLAG_ZERO else f
  let f := if result &&& 0x8000 ≠ 0 then f ||| FLAG_NEGATIVE else f
  if a + b > 0xFFFF then f ||| FLAG_CARRY else f

/-- GPRCPU::setSubFlags: Z and N on the result, C iff a >= b (carry means
"no borrow"). -/
def setSubFlags (flags a b result : Nat) : Nat :=
  let f := clearZCN flags
  let f := if result = 0 then f ||| FLAG_ZERO else f
  let f := if result &&& 0x8000 ≠ 0 then f ||| FLAG_NEGATIVE else f
  if a ≥ b then f ||| FLAG_CARRY else f

/-- The inline flag update of the SHL case (src/gpr_cpu.cpp lines 234-237):
clear Z, C, N; Z iff result == 0; N iff bit 15 of result; C iff bit 15 of the
original value. -/
def shlFlags (flags val result : Nat) : Nat :=
  let f := clearZCN flags
  let f := if result = 0 then f ||| FLAG_ZERO else f
  let f := if result &&& 0x8000 ≠ 0 then f ||| FLAG_NEGATIVE else f
  if val &&& 0x8000 ≠ 0 then f ||| FLAG_CARRY else f

/-- The inline flag update of the SHR case (src/gpr_cpu.cpp lines 245-248):
clear Z, C, N; Z iff result == 0; N iff bit 15 of result; C iff bit 0 of the
original value. -/
def shrFlags (flags val result : Nat) : Nat :=
  let f := clearZCN flags
  let f := if result = 0 then f ||| FLAG_ZERO else f
  let f := if result &&& 0x8000 ≠ 0 then f ||| FLAG_NEGATIVE else f
  if val &&& 1 ≠ 0 then f ||| FLAG_CARRY else f

/-- GPRCPU::execute (src/gpr_cpu.cpp lines 143-274): decode the fields and
dispatch on the opcode.  Trace output is ignored (a pure observer).
Stores into uint16_t registers reduce modulo 2^16 where the C++ arithmetic
can exceed 16 bits; SUB mirrors the uint16_t wraparound via Int.emod. -/
def GPRCPU.execute (cpu : GPRCPU) (instruction : Nat) : GPRCPU :=
  let op := decodeToOp (GPRCPU.decodeOpcode instruction)
  let rd := regIdx (GPRCPU.decodeRd instruction)
  let rs := regIdx (GPRCPU.decodeRs instruction)
  let imm9 := GPRCPU.decodeImm9 instruction
  match op with
  | Opcode.HALT =>
      { cpu with state := { cpu.state with halted := true } }
  | Opcode.MOVI =>
      let newR := updR cpu.state.R rd imm9
      { cpu with state := { cpu.state with
          R := newR, FLAGS := setResultFlags cpu.state.FLAGS (newR rd) } }
  | Opcode.MOV =>
      let newR := updR cpu.state.R rd (cpu.state.R rs)
      { cpu with state := { cpu.state with
          R := newR, FLAGS := setResultFlags cpu.state.FLAGS (newR rd) } }
  | Opcode.LOAD =>
      let addr := cpu.state.R rs
      let newR := updR cpu.state.R rd (cpu.bus.read addr)
      { cpu with state := { cpu.state with
          R := newR, FLAGS := setResultFlags cpu.state.FLAGS (newR rd) } }
  | Opcode.STORE =>
      let addr := cpu.state.R rs
      { cpu with bus := cpu.bus.write addr (cpu.state.R rd) }
  | Opcode.ADD =>
      let a := cpu.state.R rd
      let b := cpu.state.R rs
      let result := (a + b) % 65536
      { cpu with state := { cpu.state with
          R := updR cpu.state.R rd result,
          FLAGS := setAddFlags cpu.state.FLAGS a b result } }
  | Opcode.SUB =>
      let a := cpu.state.R rd
      let b := cpu.state.R rs
      let result := (((a : Int) - (b : Int)) % 65536).toNat
      { cpu with state := { cpu.state with
          R := updR cpu.state.R rd result,
          FLAGS := setSubFlags cpu.state.FLAGS a b result } }
  | Opcode.AND =>
      let newR := updR cpu.state.R rd (cpu.state.R rd &&& cpu.state.R rs)
      { cpu with state := { cpu.state with
          R := newR, FLAGS := setResultFlags cpu.state.FLAGS (newR rd) } }
  | Opcode.OR =>
      let newR := updR cpu.state.R rd (cpu.state.R rd ||| cpu.state.R rs)
      { cpu with state := { cpu.state with
          R := newR, FLAGS := setResultFlags cpu.state.FLAGS (newR rd) } }
  | Opcode.XOR =>
      let newR := updR cpu.state.R rd (cpu.state.R rd ^^^ cpu.state.R rs)
      { cpu with state := { cpu.state with
          R := newR, FLAGS := setResultFlags cpu.state.FLAGS (newR rd) } }
  | Opcode.NOT =>
      let newR := updR cpu.state.R rd (65535 - cpu.state.R rs % 65536)
      { cpu with state := { cpu.state with
          R := newR, FLAGS := setResultFlags cpu.state.FLAGS (newR rd) } }
  | Opcode.SHL =>
      let val := cpu.state.R rd
      let newR := updR cpu.state.R rd ((val <<< 1) % 65536)
      { cpu with state := { cpu.state with
          R := newR, FLAGS := shlFlags cpu.state.FLAGS val (newR rd) } }
  | Opcode.SHR =>
      let val := cpu.state.R rd
      let newR := updR cpu.state.R rd (val >>> 1)
      { cpu with state := { cpu.state with
          R := newR, FLAGS := shrFlags cpu.state.FLAGS val (newR rd) } }
  | Opcode.JMP =>
      { cpu with state := { cpu.state with PC := cpu.state.R rs } }
  | Opcode.JZ =>
      if cpu.state.FLAGS &&& FLAG_ZERO ≠ 0 then
        { cpu with state := { cpu.state with PC := cpu.state.R rs } }
      else cpu
  | Opcode.NOP => cpu

/-- GPRCPU::step (src/gpr_cpu.cpp lines 115-141): if halted, do nothing and
report false; otherwise fetch at PC, advance PC by one (16-bit wraparound),
execute, and report whether the core is still runnable. -/
def GPRCPU.step (cpu : GPRCPU) : Bool × GPRCPU :=
  if cpu.state.halted then (false, cpu)
  else
    let instruction := cpu.bus.read cpu.state.PC
    let cpu1 := { cpu with state :=
      { cpu.state with PC := (cpu.state.PC + 1) % 65536 } }
    let cpu2 := GPRCPU.execute cpu1 instruction
    (!cpu2.state.halted, cpu2)

/-- GPRCPU::run (src/gpr_cpu.cpp lines 280-285): while (step()) ++cycles.
The C++ loop is unbounded; fuel makes the embedding total and a run that
reaches HALT within the fuel returns the same count the C++ loop would. -/
def GPRCPU.run (fuel : Nat) (cpu : GPRCPU) : Nat × GPRCPU :=
  match fuel with
  | 0 => (0, cpu)
  | fuel + 1 =>
      let s := GPRCPU.step cpu
      if s.1 then
        let r := GPRCPU.run fuel s.2
        (r.1 + 1, r.2)
      else (0, s.2)

/-- GPRCPU::reset: zero registers, PC, FLAGS; clear halted. -/
def resetState : CPUState :=
  { R := fun _ => 0, PC := 0, FLAGS := 0, halted := false }

example : GPRCPU.decodeOpcode 0x5040 = 5 := by decide

example : GPRCPU.decodeRd 0x1005 = 0 ∧ GPRCPU.decodeImm9 0x1005 = 5 := by decide

/-! Bit-level toolkit for the flag bitmask. -/

lemma updR_same (R : Fin 8 → Nat) (i : Fin 8) (v : Nat) : updR R i v i = v := by
  simp [updR]

lemma updR_ne (R : Fin 8 → Nat) (i j : Fin 8) (v : Nat) (h : j ≠ i) :
    updR R i v j = R j := by
  simp [updR, h]

lemma clearZCN_eq (f : Nat) : clearZCN f = 8 * (f / 8) := by
  have hm : flagMask = 2 ^ 3 - 1 := by decide
  unfold clearZCN
  rw [hm, Nat.and_pow_two_sub_one_eq_mod]
  omega

lemma testBit_clearZCN (f i : Nat) (h : i < 3) : (clearZCN f).testBit i = false := by
  rw [clearZCN_eq, Nat.testBit_to_div_mod, decide_eq_false_iff_not]
  interval_cases i <;> norm_num <;> omega

lemma and_two_pow_ne_zero (x k : Nat) : (x &&& 2 ^ k ≠ 0) ↔ x.testBit k = true := by
  have hp : 0 < 2 ^ k := Nat.two_pow_pos k
  rw [Nat.and_two_pow]
  cases h : x.testBit k <;> simp [h] <;> omega

lemma and_two_pow_eq_zero (x k : Nat) : (x &&& 2 ^ k = 0) ↔ x.testBit k = false := by
  have hp : 0 < 2 ^ k := Nat.two_pow_pos k
  rw [Nat.and_two_pow]
  cases h : x.testBit k <;> simp [h] <;> omega

lemma or_clear_testBit (f x k : Nat) (hk : k < 3) :
    ((clearZCN f ||| x) &&& 2 ^ k ≠ 0) ↔ x.testBit k = true := by
  rw [and_two_pow_ne_zero, Nat.testBit_lor, testBit_clearZCN f k hk, Bool.false_or]

lemma or_clear_testBit_zero (f x k : Nat) (hk : k < 3) :
    ((clearZCN f ||| x) &&& 2 ^ k = 0) ↔ x.testBit k = false := by
  rw [and_two_pow_eq_zero, Nat.testBit_lor, testBit_clearZCN f k hk, Bool.false_or]

lemma testBit15_iff (r : Nat) : (r &&& 0x8000 ≠ 0) ↔ r.testBit 15 = true := by
  have h : (0x8000 : Nat) = 2 ^ 15 := by norm_num
  rw [h]
  exact and_two_pow_ne_zero r 15

/-! Normal forms of the three flag helpers. -/

lemma setResultFlags_eq (f r : Nat) :
    setResultFlags f r = clearZCN f |||
      ((if r = 0 then FLAG_ZERO else 0) |||
       (if r &&& 0x8000 ≠ 0 then FLAG_NEGATIVE else 0)) := by
  unfold setResultFlags
  by_cases h0 : r = 0 <;> by_cases h15 : r &&& 0x8000 ≠ 0 <;>
    simp [h0, h15, Nat.lor_assoc]

lemma setAddFlags_eq (f a b r : Nat) :
    setAddFlags f a b r = clearZCN f |||
      ((if r = 0 then FLAG_ZERO else 0) |||
       ((if r &&& 0x8000 ≠ 0 then FLAG_NEGATIVE else 0) |||
        (if a + b > 0xFFFF then FLAG_CARRY else 0))) := by
  unfold setAddFlags
  by_cases h0 : r = 0 <;> by_cases h15 : r &&& 0x8000 ≠ 0 <;>
    by_cases hc : a + b > 0xFFFF <;>
    simp [h0, h15, hc, Nat.lor_assoc]

lemma setSubFlags_eq (f a b r : Nat) :
    setSubFlags f a b r = clearZCN f |||
      ((if r = 0 then FLAG_ZERO else 0) |||
       ((if r &&& 0x8000 ≠ 0 then FLAG_NEGATIVE else 0) |||
        (if a ≥ b then FLAG_CARRY else 0))) := by
  unfold setSubFlags
  by_cases h0 : r = 0 <;> by_cases h15 : r &&& 0x8000 ≠ 0 <;>
    by_cases hc : a ≥ b <;>
    simp [h0, h15, hc, Nat.lor_assoc]

/-! Flag extraction lemmas. -/

lemma setResultFlags_zero_iff (f r : Nat) :
    (setResultFlags f r &&& FLAG_ZERO ≠ 0) ↔ r = 0 := by
  rw [setResultFlags_eq, show FLAG_ZERO = 2 ^ 0 from rfl,
    or_clear_testBit f _ 0 (by omega)]
  by_cases h0 : r = 0 <;> by_cases h15 : r &&& 0x8000 ≠ 0 <;>
    simp [h0, h15] <;> decide

lemma setResultFlags_neg_iff (f r : Nat) :
    (setResultFlags f r &&& FLAG_NEGATIVE ≠ 0) ↔ r.testBit 15 = true := by
  rw [setResultFlags_eq, show FLAG_NEGATIVE = 2 ^ 2 from rfl,
    or_clear_testBit f _ 2 (by omega), ← testBit15_iff r]
  by_cases h0 : r = 0 <;> by_cases h15 : r &&& 0x8000 ≠ 0 <;>
    simp [h0, h15] <;> decide

lemma setResultFlags_carry (f r : Nat) : setResultFlags f r &&& FLAG_CARRY = 0 := by
  rw [setResultFlags_eq, show FLAG_CARRY = 2 ^ 1 from rfl,
    or_clear_testBit_zero f _ 1 (by omega)]
  by_cases h0 : r = 0 <;> by_cases h15 : r &&& 0x8000 ≠ 0 <;>
    simp [h0, h15] <;> decide

lemma setAddFlags_zero_iff (f a b r : Nat) :
    (setAddFlags f a b r &&& FLAG_ZERO ≠ 0) ↔ r = 0 := by
  rw [setAddFlags_eq, show FLAG_ZERO = 2 ^ 0 from rfl,
    or_clear_testBit f _ 0 (by omega)]
  by_cases h0 : r = 0 <;> by_cases h15 : r &&& 0x8000 ≠ 0 <;>
    by_cases hc : a + b > 0xFFFF <;> simp [h0, h15, hc] <;> decide

lemma setAddFlags_neg_iff (f a b r : Nat) :
    (setAddFlags f a b r &&& FLAG_NEGATIVE ≠ 0) ↔ r.testBit 15 = true := by
  rw [setAddFlags_eq, show FLAG_NEGATIVE = 2 ^ 2 from rfl,
    or_clear_testBit f _ 2 (by omega), ← testBit15_iff r]
  by_cases h0 : r = 0 <;> by_cases h15 : r &&& 0x8000 ≠ 0 <;>
    by_cases hc : a + b > 0xFFFF <;> simp [h0, h15, hc] <;> decide

lemma setAddFlags_carry_iff (f a b r : Nat) :
    (setAddFlags f a b r &&& FLAG_CARRY ≠ 0) ↔ a + b > 65535 := by
  rw [setAddFlags_eq, show FLAG_CARRY = 2 ^ 1 from rfl,
    or_clear_testBit f _ 1 (by omega)]
  by_cases h0 : r = 0 <;> by_cases h15 : r &&& 0x8000 ≠ 0 <;>
    by_cases hc : a + b > 0xFFFF <;> simp [h0, h15, hc] <;> first | decide | omega

lemma setSubFlags_zero_iff (f a b r : Nat) :
    (setSubFlags f a b r &&& FLAG_ZERO ≠ 0) ↔ r = 0 := by
  rw [setSubFlags_eq, show FLAG_ZERO = 2 ^ 0 from rfl,
    or_clear_testBit f _ 0 (by omega)]
  by_cases h0 : r = 0 <;> by_cases h15 : r &&& 0x8000 ≠ 0 <;>
    by_cases hc : a ≥ b <;> simp [h0, h15, hc] <;> decide

lemma setSubFlags_neg_iff (f a b r : Nat) :
    (setSubFlags f a b r &&& FLAG_NEGATIVE ≠ 0) ↔ r.testBit 15 = true := by
  rw [setSubFlags_eq, show FLAG_NEGATIVE = 2 ^ 2 from rfl,
    or_clear_testBit f _ 2 (by omega), ← testBit15_iff r]
  by_cases h0 : r = 0 <;> by_cases h15 : r &&& 0x8000 ≠ 0 <;>
    by_cases hc : a ≥ b <;> simp [h0, h15, hc] <;> decide

lemma setSubFlags_carry_iff (f a b r : Nat) :
    (setSubFlags f a b r &&& FLAG_CARRY ≠ 0) ↔ a ≥ b := by
  rw [setSubFlags_eq, show FLAG_CARRY = 2 ^ 1 from rfl,
    or_clear_testBit f _ 1 (by omega)]
  by_cases h0 : r = 0 <;> by_cases h15 : r &&& 0x8000 ≠ 0 <;>
    by_cases hc : a ≥ b <;> simp [h0, h15, hc] <;> decide

lemma shlFlags_eq (f v r : Nat) :
    shlFlags f v r = clearZCN f |||
      ((if r = 0 then FLAG_ZERO else 0) |||
       ((if r &&& 0x8000 ≠ 0 then FLAG_NEGATIVE else 0) |||
        (if v &&& 0x8000 ≠ 0 then FLAG_CARRY else 0))) := by
  unfold shlFlags
  by_cases h0 : r = 0 <;> by_cases h15 : r &&& 0x8000 ≠ 0 <;>
    by_cases hc : v &&& 0x8000 ≠ 0 <;> simp [h0, h15, hc, Nat.lor_assoc]

lemma shrFlags_eq (f v r : Nat) :
    shrFlags f v r = clearZCN f |||
      ((if r = 0 then FLAG_ZERO else 0) |||
       ((if r &&& 0x8000 ≠ 0 then FLAG_NEGATIVE else 0) |||
        (if v &&& 1 ≠ 0 then FLAG_CARRY else 0))) := by
  unfold shrFlags
  by_cases h0 : r = 0 <;> by_cases h15 : r &&& 0x8000 ≠ 0 <;>
    by_cases hc : v % 2 = 1 <;> simp [h0, h15, hc, Nat.lor_assoc]

lemma shlFlags_zero_iff (f v r : Nat) :
    (shlFlags f v r &&& FLAG_ZERO ≠ 0) ↔ r = 0 := by
  rw [shlFlags_eq, show FLAG_ZERO = 2 ^ 0 from rfl, or_clear_testBit f _ 0 (by omega)]
  by_cases h0 : r = 0 <;> by_cases h15 : r &&& 0x8000 ≠ 0 <;>
    by_cases hc : v &&& 0x8000 ≠ 0 <;> simp [h0, h15, hc] <;> decide

lemma shlFlags_neg_iff (f v r : Nat) :
    (shlFlags f v r &&& FLAG_NEGATIVE ≠ 0) ↔ r.testBit 15 = true := by
  rw [shlFlags_eq, show FLAG_NEGATIVE = 2 ^ 2 from rfl,
    or_clear_testBit f _ 2 (by omega), ← testBit15_iff r]
  by_cases h0 : r = 0 <;> by_cases h15 : r &&& 0x8000 ≠ 0 <;>
    by_cases hc : v &&& 0x8000 ≠ 0 <;> simp [h0, h15, hc] <;> decide

lemma shlFlags_carry_iff (f v r : Nat) :
    (shlFlags f v r &&& FLAG_CARRY ≠ 0) ↔ v.testBit 15 = true := by
  rw [shlFlags_eq, show FLAG_CARRY = 2 ^ 1 from rfl,
    or_clear_testBit f _ 1 (by omega), ← testBit15_iff v]
  by_cases h0 : r = 0 <;> by_cases h15 : r &&& 0x8000 ≠ 0 <;>
    by_cases hc : v &&& 0x8000 ≠ 0 <;> simp [h0, h15, hc] <;> decide

lemma testBit0_iff (v : Nat) : (v &&& 1 ≠ 0) ↔ v.testBit 0 = true := by
  have h : (1 : Nat) = 2 ^ 0 := by norm_num
  rw [h]
  exact and_two_pow_ne_zero v 0

lemma shrFlags_zero_iff (f v r : Nat) :
    (shrFlags f v r &&& FLAG_ZERO ≠ 0) ↔ r = 0 := by
  rw [shrFlags_eq, show FLAG_ZERO = 2 ^ 0 from rfl, or_clear_testBit f _ 0 (by omega)]
  by_cases h0 : r = 0 <;> by_cases h15 : r &&& 0x8000 ≠ 0 <;>
    by_cases hc : v % 2 = 1 <;> simp [h0, h15, hc] <;> decide

lemma shrFlags_neg_iff (f v r : Nat) :
    (shrFlags f v r &&& FLAG_NEGATIVE ≠ 0) ↔ r.testBit 15 = true := by
  rw [shrFlags_eq, show FLAG_NEGATIVE = 2 ^ 2 from rfl,
    or_clear_testBit f _ 2 (by omega), ← testBit15_iff r]
  by_cases h0 : r = 0 <;> by_cases h15 : r &&& 0x8000 ≠ 0 <;>
    by_cases hc : v % 2 = 1 <;> simp [h0, h15, hc] <;> decide

lemma shrFlags_carry_iff (f v r : Nat) :
    (shrFlags f v r &&& FLAG_CARRY ≠ 0) ↔ v.testBit 0 = true := by
  rw [shrFlags_eq, show FLAG_CARRY = 2 ^ 1 from rfl,
    or_clear_testBit f _ 1 (by omega), ← testBit0_iff v]
  by_cases h0 : r = 0 <;> by_cases h15 : r &&& 0x8000 ≠ 0 <;>
    by_cases hc : v % 2 = 1 <;> simp [h0, h15, hc] <;> decide

/-! Claim theorems. -/

/-- C1: for every CPU state and every ADD instruction, with a and b the
original 16-bit values of registers Rd and Rs, executing ADD sets Rd to
(a + b) mod 65536, sets ZERO iff that result is 0, sets NEGATIVE iff bit 15
of the result is set, and sets CARRY iff the unsigned sum a + b exceeds
65535. -/
theorem add_spec (cpu : GPRCPU) (w : Nat)
    (hop : decodeToOp (GPRCPU.decodeOpcode w) = Opcode.ADD) :
    (GPRCPU.execute cpu w).state.R (GPRCPU.rdIdx w)
        = (cpu.state.R (GPRCPU.rdIdx w) + cpu.state.R (GPRCPU.rsIdx w)) % 65536
    ∧ ((GPRCPU.execute cpu w).state.FLAGS &&& FLAG_ZERO ≠ 0 ↔
        (cpu.state.R (GPRCPU.rdIdx w) + cpu.state.R (GPRCPU.rsIdx w)) % 65536 = 0)
    ∧ ((GPRCPU.execute cpu w).state.FLAGS &&& FLAG_NEGATIVE ≠ 0 ↔
        Nat.testBit ((cpu.state.R (GPRCPU.rdIdx w) + cpu.state.R (GPRCPU.rsIdx w)) % 65536) 15
          = true)
    ∧ ((GPRCPU.execute cpu w).state.FLAGS &&& FLAG_CARRY ≠ 0 ↔
        cpu.state.R (GPRCPU.rdIdx w) + cpu.state.R (GPRCPU.rsIdx w) > 65535) := by
  simp only [GPRCPU.rdIdx, GPRCPU.rsIdx]
  simp only [GPRCPU.execute, hop]
  refine ⟨?_, ?_, ?_, ?_⟩
  · simp [updR_same]
  · simp [setAddFlags_zero_iff]
  · simp [setAddFlags_neg_iff]
  · simp [setAddFlags_carry_iff]

/-- Example machine for the ADD witness: R0 = 0xFFFF, R1 = 0x0001. -/
def addExCpu : GPRCPU :=
  { state := { R := fun i => if i = 0 then 0xFFFF else if i = 1 then 1 else 0,
               PC := 0, FLAGS := 0, halted := false },
    bus := { capacity := 65536, memory := fun _ => 0 } }

/-- Witness for C1 at the spec example: ADD R0, R1 (word 0x5040) on operands
0xFFFF and 0x0001. -/
theorem add_spec_witness :
    (GPRCPU.execute addExCpu 0x5040).state.R (GPRCPU.rdIdx 0x5040)
        = (addExCpu.state.R (GPRCPU.rdIdx 0x5040) + addExCpu.state.R (GPRCPU.rsIdx 0x5040)) % 65536
    ∧ ((GPRCPU.execute addExCpu 0x5040).state.FLAGS &&& FLAG_ZERO ≠ 0 ↔
        (addExCpu.state.R (GPRCPU.rdIdx 0x5040) + addExCpu.state.R (GPRCPU.rsIdx 0x5040)) % 65536
          = 0)
    ∧ ((GPRCPU.execute addExCpu 0x5040).state.FLAGS &&& FLAG_NEGATIVE ≠ 0 ↔
        Nat.testBit
          ((addExCpu.state.R (GPRCPU.rdIdx 0x5040) + addExCpu.state.R (GPRCPU.rsIdx 0x5040))
            % 65536) 15 = true)
    ∧ ((GPRCPU.execute addExCpu 0x5040).state.FLAGS &&& FLAG_CARRY ≠ 0 ↔
        addExCpu.state.R (GPRCPU.rdIdx 0x5040) + addExCpu.state.R (GPRCPU.rsIdx 0x5040) > 65535) :=
  add_spec addExCpu 0x5040 rfl

example : (GPRCPU.execute addExCpu 0x5040).state.FLAGS = FLAG_ZERO ||| FLAG_CARRY := by decide

example : (GPRCPU.execute addExCpu 0x5040).state.R 0 = 0 := by decide

/-- C2: for every CPU state and every SUB instruction, with a and b the
original 16-bit values of registers Rd and Rs, executing SUB sets Rd to
(a - b) mod 65536 (as integers), sets ZERO iff that result is 0, sets
NEGATIVE iff bit 15 of the result is set, and sets CARRY iff a >= b as
unsigned integers (carry means no borrow). -/
theorem sub_spec (cpu : GPRCPU) (w : Nat)
    (hop : decodeToOp (GPRCPU.decodeOpcode w) = Opcode.SUB) :
    ((GPRCPU.execute cpu w).state.R (GPRCPU.rdIdx w) : Int)
        = ((cpu.state.R (GPRCPU.rdIdx w) : Int) - (cpu.state.R (GPRCPU.rsIdx w) : Int)) % 65536
    ∧ ((GPRCPU.execute cpu w).state.FLAGS &&& FLAG_ZERO ≠ 0 ↔
        ((cpu.state.R (GPRCPU.rdIdx w) : Int) - (cpu.state.R (GPRCPU.rsIdx w) : Int)) % 65536
          = 0)
    ∧ ((GPRCPU.execute cpu w).state.FLAGS &&& FLAG_NEGATIVE ≠ 0 ↔
        Nat.testBit
          ((((cpu.state.R (GPRCPU.rdIdx w) : Int) - (cpu.state.R (GPRCPU.rsIdx w) : Int))
            % 65536).toNat) 15 = true)
    ∧ ((GPRCPU.execute cpu w).state.FLAGS &&& FLAG_CARRY ≠ 0 ↔
        cpu.state.R (GPRCPU.rdIdx w) ≥ cpu.state.R (GPRCPU.rsIdx w)) := by
  have hnn : (0 : Int) ≤
      ((cpu.state.R (GPRCPU.rdIdx w) : Int) - (cpu.state.R (GPRCPU.rsIdx w) : Int)) % 65536 :=
    Int.emod_nonneg _ (by norm_num)
  simp only [GPRCPU.rdIdx, GPRCPU.rsIdx] at *
  simp only [GPRCPU.execute, hop]
  refine ⟨?_, ?_, ?_, ?_⟩
  · simp only [updR_same]
    exact Int.toNat_of_nonneg hnn
  · rw [setSubFlags_zero_iff]
    omega
  · rw [setSubFlags_neg_iff]
  · rw [setSubFlags_carry_iff]

/-- Example machine for the SUB witness: R0 = R1 = 5, R2 = 0, R3 = 1. -/
def subExCpu : GPRCPU :=
  { state := { R := fun i =>
                  if i = 0 then 5 else if i = 1 then 5 else if i = 2 then 0 else
                  if i = 3 then 1 else 0,
               PC := 0, FLAGS := 0, halted := false },
    bus := { capacity := 65536, memory := fun _ => 0 } }

/-- Witness for C2 at the spec examples: SUB R0, R1 (word 0x6040) on the
operand pair (5, 5), and SUB R2, R3 (word 0x64C0) on the pair (0, 1). -/
theorem sub_spec_witness :
    (((GPRCPU.execute subExCpu 0x6040).state.R (GPRCPU.rdIdx 0x6040) : Int)
        = ((subExCpu.state.R (GPRCPU.rdIdx 0x6040) : Int)
            - (subExCpu.state.R (GPRCPU.rsIdx 0x6040) : Int)) % 65536
    ∧ ((GPRCPU.execute subExCpu 0x6040).state.FLAGS &&& FLAG_ZERO ≠ 0 ↔
        ((subExCpu.state.R (GPRCPU.rdIdx 0x6040) : Int)
            - (subExCpu.state.R (GPRCPU.rsIdx 0x6040) : Int)) % 65536 = 0)
    ∧ ((GPRCPU.execute subExCpu 0x6040).state.FLAGS &&& FLAG_NEGATIVE ≠ 0 ↔
        Nat.testBit
          ((((subExCpu.state.R (GPRCPU.rdIdx 0x6040) : Int)
              - (subExCpu.state.R (GPRCPU.rsIdx 0x6040) : Int)) % 65536).toNat) 15 = true)
    ∧ ((GPRCPU.execute subExCpu 0x6040).state.FLAGS &&& FLAG_CARRY ≠ 0 ↔
        subExCpu.state.R (GPRCPU.rdIdx 0x6040) ≥ subExCpu.state.R (GPRCPU.rsIdx 0x6040)))
    ∧ (((GPRCPU.execute subExCpu 0x64C0).state.R (GPRCPU.rdIdx 0x64C0) : Int)
        = ((subExCpu.state.R (GPRCPU.rdIdx 0x64C0) : Int)
            - (subExCpu.state.R (GPRCPU.rsIdx 0x64C0) : Int)) % 65536
    ∧ ((GPRCPU.execute subExCpu 0x64C0).state.FLAGS &&& FLAG_ZERO ≠ 0 ↔
        ((subExCpu.state.R (GPRCPU.rdIdx 0x64C0) : Int)
            - (subExCpu.state.R (GPRCPU.rsIdx 0x64C0) : Int)) % 65536 = 0)
    ∧ ((GPRCPU.execute subExCpu 0x64C0).state.FLAGS &&& FLAG_NEGATIVE ≠ 0 ↔
        Nat.testBit
          ((((subExCpu.state.R (GPRCPU.rdIdx 0x64C0) : Int)
              - (subExCpu.state.R (GPRCPU.rsIdx 0x64C0) : Int)) % 65536).toNat) 15 = true)
    ∧ ((GPRCPU.execute subExCpu 0x64C0).state.FLAGS &&& FLAG_CARRY ≠ 0 ↔
        subExCpu.state.R (GPRCPU.rdIdx 0x64C0) ≥ subExCpu.state.R (GPRCPU.rsIdx 0x64C0))) :=
  ⟨sub_spec subExCpu 0x6040 rfl, sub_spec subExCpu 0x64C0 rfl⟩

example : (GPRCPU.execute subExCpu 0x6040).state.FLAGS = FLAG_ZERO ||| FLAG_CARRY := by decide

example : (GPRCPU.execute subExCpu 0x64C0).state.R 2 = 0xFFFF ∧
    (GPRCPU.execute subExCpu 0x64C0).state.FLAGS &&& FLAG_CARRY = 0 := by decide

/-- C5: for every original value v of register Rd, SHL sets Rd to
(v shifted left by 1) mod 65536 with CARRY equal to original bit 15 of v,
and SHR sets Rd to v shifted right by 1 (zero fill) with CARRY equal to
original bit 0 of v; both set ZERO iff the result is 0 and NEGATIVE iff
bit 15 of the result is set. -/
theorem shift_spec (cpu : GPRCPU) (w : Nat) :
    (decodeToOp (GPRCPU.decodeOpcode w) = Opcode.SHL →
      (GPRCPU.execute cpu w).state.R (GPRCPU.rdIdx w)
          = (cpu.state.R (GPRCPU.rdIdx w) <<< 1) % 65536
      ∧ ((GPRCPU.execute cpu w).state.FLAGS &&& FLAG_ZERO ≠ 0 ↔
          (cpu.state.R (GPRCPU.rdIdx w) <<< 1) % 65536 = 0)
      ∧ ((GPRCPU.execute cpu w).state.FLAGS &&& FLAG_NEGATIVE ≠ 0 ↔
          Nat.testBit ((cpu.state.R (GPRCPU.rdIdx w) <<< 1) % 65536) 15 = true)
      ∧ ((GPRCPU.execute cpu w).state.FLAGS &&& FLAG_CARRY ≠ 0 ↔
          Nat.testBit (cpu.state.R (GPRCPU.rdIdx w)) 15 = true))
    ∧ (decodeToOp (GPRCPU.decodeOpcode w) = Opcode.SHR →
      (GPRCPU.execute cpu w).state.R (GPRCPU.rdIdx w)
          = cpu.state.R (GPRCPU.rdIdx w) >>> 1
      ∧ ((GPRCPU.execute cpu w).state.FLAGS &&& FLAG_ZERO ≠ 0 ↔
          cpu.state.R (GPRCPU.rdIdx w) >>> 1 = 0)
      ∧ ((GPRCPU.execute cpu w).state.FLAGS &&& FLAG_NEGATIVE ≠ 0 ↔
          Nat.testBit (cpu.state.R (GPRCPU.rdIdx w) >>> 1) 15 = true)
      ∧ ((GPRCPU.execute cpu w).state.FLAGS &&& FLAG_CARRY ≠ 0 ↔
          Nat.testBit (cpu.state.R (GPRCPU.rdIdx w)) 0 = true)) := by
  constructor
  · intro hop
    simp only [GPRCPU.rdIdx]
    simp only [GPRCPU.execute, hop]
    refine ⟨?_, ?_, ?_, ?_⟩
    · simp [updR_same]
    · simp [updR_same, shlFlags_zero_iff]
    · simp [updR_same, shlFlags_neg_iff]
    · simp [updR_same, shlFlags_carry_iff]
  · intro hop
    simp only [GPRCPU.rdIdx]
    simp only [GPRCPU.execute, hop]
    refine ⟨?_, ?_, ?_, ?_⟩
    · simp [updR_same]
    · simp [updR_same, shrFlags_zero_iff]
    · simp [updR_same, shrFlags_neg_iff]
    · simp [updR_same, shrFlags_carry_iff]

/-- Example machine for the shift witness: R0 = 0x8000, R1 = 0x0001. -/
def shiftExCpu : GPRCPU :=
  { state := { R := fun i => if i = 0 then 0x8000 else if i = 1 then 1 else 0,
               PC := 0, FLAGS := 0, halted := false },
    bus := { capacity := 65536, memory := fun _ => 0 } }

/-- Witness for C5 at the spec examples: SHL R0 (word 0xB000) on 0x8000 and
SHR R1 (word 0xC200) on 0x0001. -/
theorem shift_spec_witness :
    ((GPRCPU.execute shiftExCpu 0xB000).state.R (GPRCPU.rdIdx 0xB000)
        = (shiftExCpu.state.R (GPRCPU.rdIdx 0xB000) <<< 1) % 65536
    ∧ ((GPRCPU.execute shiftExCpu 0xB000).state.FLAGS &&& FLAG_ZERO ≠ 0 ↔
        (shiftExCpu.state.R (GPRCPU.rdIdx 0xB000) <<< 1) % 65536 = 0)
    ∧ ((GPRCPU.execute shiftExCpu 0xB000).state.FLAGS &&& FLAG_NEGATIVE ≠ 0 ↔
        Nat.testBit ((shiftExCpu.state.R (GPRCPU.rdIdx 0xB000) <<< 1) % 65536) 15 = true)
    ∧ ((GPRCPU.execute shiftExCpu 0xB000).state.FLAGS &&& FLAG_CARRY ≠ 0 ↔
        Nat.testBit (shiftExCpu.state.R (GPRCPU.rdIdx 0xB000)) 15 = true))
    ∧ ((GPRCPU.execute shiftExCpu 0xC200).state.R (GPRCPU.rdIdx 0xC200)
        = shiftExCpu.state.R (GPRCPU.rdIdx 0xC200) >>> 1
    ∧ ((GPRCPU.execute shiftExCpu 0xC200).state.FLAGS &&& FLAG_ZERO ≠ 0 ↔
        shiftExCpu.state.R (GPRCPU.rdIdx 0xC200) >>> 1 = 0)
    ∧ ((GPRCPU.execute shiftExCpu 0xC200).state.FLAGS &&& FLAG_NEGATIVE ≠ 0 ↔
        Nat.testBit (shiftExCpu.state.R (GPRCPU.rdIdx 0xC200) >>> 1) 15 = true)
    ∧ ((GPRCPU.execute shiftExCpu 0xC200).state.FLAGS &&& FLAG_CARRY ≠ 0 ↔
        Nat.testBit (shiftExCpu.state.R (GPRCPU.rdIdx 0xC200)) 0 = true)) :=
  ⟨(shift_spec shiftExCpu 0xB000).1 rfl, (shift_spec shiftExCpu 0xC200).2 rfl⟩

example : (GPRCPU.execute shiftExCpu 0xB000).state.R 0 = 0 ∧
    (GPRCPU.execute shiftExCpu 0xB000).state.FLAGS = FLAG_ZERO ||| FLAG_CARRY := by decide

example : (GPRCPU.execute shiftExCpu 0xC200).state.R 1 = 0 ∧
    (GPRCPU.execute shiftExCpu 0xC200).state.FLAGS = FLAG_ZERO ||| FLAG_CARRY := by decide

/-- C8: for every instruction word w, decodeOpcode extracts bits 15-12,
decodeRd bits 11-9, decodeRs bits 8-6 and decodeImm9 bits 8-0 (stated as the
corresponding divide-and-mod bit-range extractions, so each field is
independent of all other bits of w), and the decoded register indices are
always in the range 0-7. -/
theorem decode_fields (w : Nat) :
    GPRCPU.decodeOpcode w = w / 2 ^ 12 % 2 ^ 4
    ∧ GPRCPU.decodeRd w = w / 2 ^ 9 % 2 ^ 3
    ∧ GPRCPU.decodeRs w = w / 2 ^ 6 % 2 ^ 3
    ∧ GPRCPU.decodeImm9 w = w % 2 ^ 9
    ∧ GPRCPU.decodeRd w < 8
    ∧ GPRCPU.decodeRs w < 8 := by
  have h4 : (0xF : Nat) = 2 ^ 4 - 1 := by norm_num
  have h3 : (0x7 : Nat) = 2 ^ 3 - 1 := by norm_num
  have h9 : (0x1FF : Nat) = 2 ^ 9 - 1 := by norm_num
  have hop : GPRCPU.decodeOpcode w = w / 2 ^ 12 % 2 ^ 4 := by
    unfold GPRCPU.decodeOpcode
    rw [h4, Nat.and_pow_two_sub_one_eq_mod, Nat.shiftRight_eq_div_pow]
  have hrd : GPRCPU.decodeRd w = w / 2 ^ 9 % 2 ^ 3 := by
    unfold GPRCPU.decodeRd
    rw [h3, Nat.and_pow_two_sub_one_eq_mod, Nat.shiftRight_eq_div_pow]
  have hrs : GPRCPU.decodeRs w = w / 2 ^ 6 % 2 ^ 3 := by
    unfold GPRCPU.decodeRs
    rw [h3, Nat.and_pow_two_sub_one_eq_mod, Nat.shiftRight_eq_div_pow]
  have him : GPRCPU.decodeImm9 w = w % 2 ^ 9 := by
    unfold GPRCPU.decodeImm9
    rw [h9, Nat.and_pow_two_sub_one_eq_mod]
  refine ⟨hop, hrd, hrs, him, ?_, ?_⟩
  · rw [hrd]; omega
  · rw [hrs]; omega

/-- C9: Bus.read returns the stored cell for an in-range address and 0 for an
out-of-range address; Bus.write stores in range and is silently discarded out
of range; an out-of-range write has no effect on any in-range read, and an
in-range write changes only the targeted cell. -/
theorem bus_contract (b : Bus) (address value a : Nat) :
    (address < b.capacity → Bus.read b address = b.memory address)
    ∧ (b.capacity ≤ address → Bus.read b address = 0)
    ∧ (address < b.capacity → (Bus.write b address value).memory address = value)
    ∧ (b.capacity ≤ address → a < b.capacity →
        Bus.read (Bus.write b address value) a = Bus.read b a)
    ∧ (address < b.capacity → a ≠ address →
        (Bus.write b address value).memory a = b.memory a) := by
  refine ⟨?_, ?_, ?_, ?_, ?_⟩
  · intro h; simp [Bus.read, h]
  · intro h; simp [Bus.read, Nat.not_lt.mpr h]
  · intro h; simp [Bus.write, h]
  · intro h ha; simp [Bus.write, Nat.not_lt.mpr h]
  · intro h hne; simp [Bus.write, h, hne]

/-- Example bus for the C9 witness: capacity 4, cell 2 holds 7. -/
def busEx : Bus := { capacity := 4, memory := fun a => if a = 2 then 7 else 0 }

/-- Witness for C9 on a capacity-4 bus: reading in-range address 2 returns
the cell, reading out-of-range address 9 returns 0, an in-range write lands,
an out-of-range write does not disturb in-range reads, and an in-range write
leaves the other cells alone. -/
theorem bus_contract_witness :
    Bus.read busEx 2 = busEx.memory 2
    ∧ Bus.read busEx 9 = 0
    ∧ (Bus.write busEx 2 5).memory 2 = 5
    ∧ Bus.read (Bus.write busEx 9 5) 1 = Bus.read busEx 1
    ∧ (Bus.write busEx 2 5).memory 1 = busEx.memory 1 :=
  ⟨(bus_contract busEx 2 5 1).1 (by decide),
   (bus_contract busEx 9 5 1).2.1 (by decide),
   (bus_contract busEx 2 5 1).2.2.1 (by decide),
   (bus_contract busEx 9 5 1).2.2.2.1 (by decide) (by decide),
   (bus_contract busEx 2 5 1).2.2.2.2 (by decide) (by decide)⟩

/-- C3: if the halted flag is already true, single-step performs no fetch and
leaves the whole CPU state unchanged, reporting not-runnable; if halted is
false, single-step reports runnable iff the executed instruction was not
HALT. -/
theorem step_halt_report (cpu : GPRCPU) :
    (cpu.state.halted = true → GPRCPU.step cpu = (false, cpu))
    ∧ (cpu.state.halted = false →
        ((GPRCPU.step cpu).1 = true ↔
          decodeToOp (GPRCPU.decodeOpcode (cpu.bus.read cpu.state.PC)) ≠ Opcode.HALT)) := by
  constructor
  · intro h
    simp [GPRCPU.step, h]
  · intro h
    cases hop : decodeToOp (GPRCPU.decodeOpcode (cpu.bus.read cpu.state.PC)) <;>
      simp [GPRCPU.step, GPRCPU.execute, h, hop] <;> split <;> simp

/-- Example machine for the C3 witness, already halted. -/
def haltedExCpu : GPRCPU :=
  { state := { R := fun _ => 0, PC := 0, FLAGS := 0, halted := true },
    bus := { capacity := 65536, memory := fun _ => 0 } }

/-- Example machine for the C3 witness, not halted, with MOVI R0, 5 at
address 0. -/
def runExCpu : GPRCPU :=
  { state := resetState,
    bus := { capacity := 65536, memory := fun a => if a = 0 then 0x1005 else 0 } }

/-- Witness for C3: a step on a halted machine is a no-op reporting false, and
a non-halted step on a non-HALT instruction reports runnable. -/
theorem step_halt_report_witness :
    GPRCPU.step haltedExCpu = (false, haltedExCpu)
    ∧ ((GPRCPU.step runExCpu).1 = true ↔
        decodeToOp (GPRCPU.decodeOpcode (runExCpu.bus.read runExCpu.state.PC)) ≠ Opcode.HALT) :=
  ⟨(step_halt_report haltedExCpu).1 rfl, (step_halt_report runExCpu).2 rfl⟩

example : (GPRCPU.step runExCpu).1 = true := by decide

/-- C4: in every non-halted step the instruction word is fetched from the Bus
at the current PC and PC is advanced by one (16-bit) before execution; JMP
then overwrites PC with the value of register Rs unconditionally; JZ
overwrites PC with the value of register Rs when ZERO is set and, when ZERO
is clear, leaves the machine exactly at the fetch address plus one with no
other state change. -/
theorem step_fetch_jump (cpu : GPRCPU) (h : cpu.state.halted = false) :
    (GPRCPU.step cpu).2 =
      GPRCPU.execute
        { cpu with state := { cpu.state with PC := (cpu.state.PC + 1) % 65536 } }
        (cpu.bus.read cpu.state.PC)
    ∧ (decodeToOp (GPRCPU.decodeOpcode (cpu.bus.read cpu.state.PC)) = Opcode.JMP →
        (GPRCPU.step cpu).2.state.PC
          = cpu.state.R (GPRCPU.rsIdx (cpu.bus.read cpu.state.PC)))
    ∧ (decodeToOp (GPRCPU.decodeOpcode (cpu.bus.read cpu.state.PC)) = Opcode.JZ →
        cpu.state.FLAGS &&& FLAG_ZERO ≠ 0 →
        (GPRCPU.step cpu).2.state.PC
          = cpu.state.R (GPRCPU.rsIdx (cpu.bus.read cpu.state.PC)))
    ∧ (decodeToOp (GPRCPU.decodeOpcode (cpu.bus.read cpu.state.PC)) = Opcode.JZ →
        cpu.state.FLAGS &&& FLAG_ZERO = 0 →
        (GPRCPU.step cpu).2 =
          { cpu with state := { cpu.state with PC := (cpu.state.PC + 1) % 65536 } }) := by
  refine ⟨?_, ?_, ?_, ?_⟩
  · simp [GPRCPU.step, h]
  · intro hop
    simp [GPRCPU.step, GPRCPU.execute, GPRCPU.rsIdx, h, hop]
  · intro hop hz
    simp [GPRCPU.step, GPRCPU.execute, GPRCPU.rsIdx, h, hop, hz]
  · intro hop hz
    simp [GPRCPU.step, GPRCPU.execute, GPRCPU.rsIdx, h, hop, hz]

/-- Example machine for the C4 witness: JMP R1 at address 0, R1 = 7. -/
def jmpExCpu : GPRCPU :=
  { state := { R := fun i => if i = 1 then 7 else 0, PC := 0, FLAGS := 0,
               halted := false },
    bus := { capacity := 65536, memory := fun a => if a = 0 then 0xD040 else 0 } }

/-- Example machine for the C4 witness: JZ R1 at address 0, ZERO clear. -/
def jzExCpu : GPRCPU :=
  { state := resetState,
    bus := { capacity := 65536, memory := fun a => if a = 0 then 0xE040 else 0 } }

/-- Example machine for the C4 witness: JZ R1 at address 0, ZERO set, R1 = 7. -/
def jzTakenExCpu : GPRCPU :=
  { state := { R := fun i => if i = 1 then 7 else 0, PC := 0, FLAGS := FLAG_ZERO,
               halted := false },
    bus := { capacity := 65536, memory := fun a => if a = 0 then 0xE040 else 0 } }

/-- Witness for C4: JMP jumps to R1; JZ with ZERO set jumps to R1; JZ with
ZERO clear only advances PC by one word. -/
theorem step_fetch_jump_witness :
    (GPRCPU.step jmpExCpu).2.state.PC
      = jmpExCpu.state.R (GPRCPU.rsIdx (jmpExCpu.bus.read jmpExCpu.state.PC))
    ∧ (GPRCPU.step jzTakenExCpu).2.state.PC
      = jzTakenExCpu.state.R (GPRCPU.rsIdx (jzTakenExCpu.bus.read jzTakenExCpu.state.PC))
    ∧ (GPRCPU.step jzExCpu).2 =
        { jzExCpu with state :=
          { jzExCpu.state with PC := (jzExCpu.state.PC + 1) % 65536 } } :=
  ⟨(step_fetch_jump jmpExCpu rfl).2.1 rfl,
   (step_fetch_jump jzTakenExCpu rfl).2.2.1 rfl (by decide),
   (step_fetch_jump jzExCpu rfl).2.2.2 rfl rfl⟩

example : (GPRCPU.step jmpExCpu).2.state.PC = 7 := by decide

example : (GPRCPU.step jzExCpu).2.state.PC = 1 := by decide

/-- C10: a single step whose fetched instruction is not a STORE leaves every
Bus memory cell unchanged; a non-halted STORE step writes exactly one cell,
at the address given by the value of register Rs, with the value of register
Rd (the write lands when the address is within capacity, which in the shipped
64K configuration is every 16-bit address). -/
theorem store_frame (cpu : GPRCPU) (a : Nat) :
    (decodeToOp (GPRCPU.decodeOpcode (cpu.bus.read cpu.state.PC)) ≠ Opcode.STORE →
      (GPRCPU.step cpu).2.bus.memory a = cpu.bus.memory a)
    ∧ (cpu.state.halted = false →
        decodeToOp (GPRCPU.decodeOpcode (cpu.bus.read cpu.state.PC)) = Opcode.STORE →
        (a ≠ cpu.state.R (GPRCPU.rsIdx (cpu.bus.read cpu.state.PC)) →
          (GPRCPU.step cpu).2.bus.memory a = cpu.bus.memory a)
        ∧ (cpu.state.R (GPRCPU.rsIdx (cpu.bus.read cpu.state.PC)) < cpu.bus.capacity →
            (GPRCPU.step cpu).2.bus.memory
              (cpu.state.R (GPRCPU.rsIdx (cpu.bus.read cpu.state.PC)))
              = cpu.state.R (GPRCPU.rdIdx (cpu.bus.read cpu.state.PC)))) := by
  constructor
  · intro hne
    by_cases hh : cpu.state.halted
    · simp [GPRCPU.step, hh]
    · cases hop : decodeToOp (GPRCPU.decodeOpcode (cpu.bus.read cpu.state.PC)) <;>
        first
        | exact absurd hop hne
        | (simp [GPRCPU.step, GPRCPU.execute, hh, hop]
           try (split <;> rfl))
  · intro hh hop
    constructor
    · intro hne
      simp only [GPRCPU.rsIdx] at hne
      simp [GPRCPU.step, GPRCPU.execute, hh, hop, Bus.write]
      split <;> simp [hne]
    · intro hcap
      simp only [GPRCPU.rsIdx] at hcap
      simp [GPRCPU.step, GPRCPU.execute, GPRCPU.rsIdx, GPRCPU.rdIdx, hh, hop,
        Bus.write, hcap]

/-- Example machine for the C10 witness: STORE R0, (R1) at address 0 with
R0 = 9 and R1 = 0x100. -/
def storeExCpu : GPRCPU :=
  { state := { R := fun i => if i = 0 then 9 else if i = 1 then 0x100 else 0,
               PC := 0, FLAGS := 0, halted := false },
    bus := { capacity := 65536, memory := fun a => if a = 0 then 0x4040 else 0 } }

/-- Witness for C10: a MOVI step leaves cell 5 unchanged; a STORE step leaves
cell 5 unchanged and writes R0 into the cell addressed by R1. -/
theorem store_frame_witness :
    (GPRCPU.step runExCpu).2.bus.memory 5 = runExCpu.bus.memory 5
    ∧ (GPRCPU.step storeExCpu).2.bus.memory 5 = storeExCpu.bus.memory 5
    ∧ (GPRCPU.step storeExCpu).2.bus.memory
        (storeExCpu.state.R (GPRCPU.rsIdx (storeExCpu.bus.read storeExCpu.state.PC)))
        = storeExCpu.state.R (GPRCPU.rdIdx (storeExCpu.bus.read storeExCpu.state.PC)) :=
  ⟨(store_frame runExCpu 5).1 (by decide),
   ((store_frame storeExCpu 5).2 rfl rfl).1 (by decide),
   ((store_frame storeExCpu 5).2 rfl rfl).2 (by decide)⟩

example : (GPRCPU.step storeExCpu).2.bus.memory 0x100 = 9 := by decide

lemma or_clear_and_mask (f x : Nat) :
    (clearZCN f ||| x) &&& flagMask = x &&& flagMask := by
  have h7 : flagMask = 2 ^ 3 - 1 := by decide
  apply Nat.eq_of_testBit_eq
  intro i
  by_cases hi : i < 3
  · simp [Nat.testBit_land, Nat.testBit_lor, h7, Nat.testBit_two_pow_sub_one,
      testBit_clearZCN f i hi, hi]
  · have h7f : Nat.testBit 7 i = false :=
      Nat.testBit_lt_two_pow (by
        calc (7 : Nat) < 2 ^ 3 := by norm_num
        _ ≤ 2 ^ i := Nat.pow_le_pow_right (by omega) (by omega))
    simp [Nat.testBit_land, Nat.testBit_lor, h7, h7f]

/-- The opcodes that update FLAGS (every opcode whose case calls a flag
helper or updates FLAGS inline). -/
def flagAffecting (op : Opcode) : Bool :=
  match op with
  | Opcode.MOVI | Opcode.MOV | Opcode.LOAD | Opcode.ADD | Opcode.SUB
  | Opcode.AND | Opcode.OR | Opcode.XOR | Opcode.NOT
  | Opcode.SHL | Opcode.SHR => true
  | _ => false

/-- The flag-affecting opcodes listed as Z,N-on-result only (they go through
setResultFlags, which leaves CARRY cleared). -/
def znOnly (op : Opcode) : Bool :=
  match op with
  | Opcode.MOVI | Opcode.MOV | Opcode.LOAD | Opcode.AND | Opcode.OR
  | Opcode.XOR | Opcode.NOT => true
  | _ => false

/-- C6: every flag-affecting operation clears the three flag bits and
recomputes them from this instruction alone — the resulting three-bit flag
field does not depend on the previous FLAGS value — and every Z,N-on-result
operation other than ADD, SUB, SHL, SHR (MOVI, MOV, LOAD, AND, OR, XOR, NOT)
leaves CARRY cleared regardless of its previous value. -/
theorem flags_recomputed (cpu : GPRCPU) (g w : Nat)
    (hfa : flagAffecting (decodeToOp (GPRCPU.decodeOpcode w)) = true) :
    ((GPRCPU.execute { cpu with state := { cpu.state with FLAGS := g } } w).state.FLAGS
        &&& flagMask)
      = ((GPRCPU.execute cpu w).state.FLAGS &&& flagMask)
    ∧ (znOnly (decodeToOp (GPRCPU.decodeOpcode w)) = true →
        (GPRCPU.execute cpu w).state.FLAGS &&& FLAG_CARRY = 0) := by
  constructor
  · cases hop : decodeToOp (GPRCPU.decodeOpcode w) <;>
      rw [hop] at hfa <;> simp [flagAffecting] at hfa <;>
      simp [GPRCPU.execute, hop, setResultFlags_eq, setAddFlags_eq, setSubFlags_eq,
        shlFlags_eq, shrFlags_eq, or_clear_and_mask]
  · intro hzn
    cases hop : decodeToOp (GPRCPU.decodeOpcode w) <;>
      rw [hop] at hzn <;> simp [znOnly] at hzn <;>
      simp [GPRCPU.execute, hop, setResultFlags_carry]

/-- Example machine for the C6 witness: all three flags set, MOVI R0, 5 as
the instruction. -/
def flagsExCpu : GPRCPU :=
  { state := { R := fun _ => 0, PC := 0, FLAGS := 7, halted := false },
    bus := { capacity := 65536, memory := fun _ => 0 } }

/-- Witness for C6 at MOVI R0, 5 (word 0x1005): the flag field after
execution is the same whether the previous FLAGS value was 7 or 0, and CARRY
ends up clear. -/
theorem flags_recomputed_witness :
    ((GPRCPU.execute { flagsExCpu with state := { flagsExCpu.state with FLAGS := 0 } }
        0x1005).state.FLAGS &&& flagMask)
      = ((GPRCPU.execute flagsExCpu 0x1005).state.FLAGS &&& flagMask)
    ∧ (GPRCPU.execute flagsExCpu 0x1005).state.FLAGS &&& FLAG_CARRY = 0 :=
  ⟨(flags_recomputed flagsExCpu 0 0x1005 (by decide)).1,
   (flags_recomputed flagsExCpu 0 0x1005 (by decide)).2 (by decide)⟩

example : (GPRCPU.execute flagsExCpu 0x1005).state.FLAGS = 0 := by decide

lemma run_succ_true (k : Nat) (m : GPRCPU) (h : (GPRCPU.step m).1 = true) :
    GPRCPU.run (k + 1) m =
      ((GPRCPU.run k (GPRCPU.step m).2).1 + 1, (GPRCPU.run k (GPRCPU.step m).2).2) := by
  simp [GPRCPU.run, h]

lemma run_succ_false (k : Nat) (m : GPRCPU) (h : (GPRCPU.step m).1 = false) :
    GPRCPU.run (k + 1) m = (0, (GPRCPU.step m).2) := by
  simp [GPRCPU.run, h]

/-- The machine for the C7 program: a reset CPU on a 64K bus holding
MOVI R0, 5 (word 0x1005) at address 0 and HALT (word 0x0000) at address 1. -/
def c7Cpu : GPRCPU :=
  { state := resetState,
    bus := { capacity := 65536, memory := fun a => if a = 0 then 0x1005 else 0 } }

/-- C7: run-to-halt counts only the steps that reported runnable, so the
HALT-executing step is not counted: on the program [MOVI R0 := 5, HALT] from
a reset state it returns cycle count 1 while two instructions were fetched
(final PC = 2), and it ends with register 0 = 5 and halted = true, for any
fuel bound of at least 2. -/
theorem run_movi_halt (fuel : Nat) (h : 2 ≤ fuel) :
    (GPRCPU.run fuel c7Cpu).1 = 1
    ∧ (GPRCPU.run fuel c7Cpu).2.state.R 0 = 5
    ∧ (GPRCPU.run fuel c7Cpu).2.state.halted = true
    ∧ (GPRCPU.run fuel c7Cpu).2.state.PC = 2 := by
  obtain ⟨k, rfl⟩ : ∃ k, fuel = k + 2 := ⟨fuel - 2, by omega⟩
  have s1 : (GPRCPU.step c7Cpu).1 = true := by decide
  have s2 : (GPRCPU.step (GPRCPU.step c7Cpu).2).1 = false := by decide
  rw [show k + 2 = (k + 1) + 1 from rfl, run_succ_true (k + 1) c7Cpu s1,
    run_succ_false k _ s2]
  refine ⟨rfl, ?_, ?_, ?_⟩ <;> decide

/-- Witness for C7 at fuel 2. -/
theorem run_movi_halt_witness :
    (GPRCPU.run 2 c7Cpu).1 = 1
    ∧ (GPRCPU.run 2 c7Cpu).2.state.R 0 = 5
    ∧ (GPRCPU.run 2 c7Cpu).2.state.halted = true
    ∧ (GPRCPU.run 2 c7Cpu).2.state.PC = 2 :=
  run_movi_halt 2 (by decide)
